import Mathlib

/-!
Verification of the bulk_api CRUD layer (src/index.js, src/data/config.js).

The repository is a set of Express route handlers that turn request bodies
and path parameters into MySQL statements executed through a shared pool
(`pool.query`) and map the callback outcome to HTTP responses.  Each handler
is embedded here as a pure function:

* the statement(s) it hands to the query executor are modelled as `Stmt`
  (SQL text plus the list of bound values — the second argument of
  `pool.query`, empty when the handler interpolates values into the text);
* the executor callback outcome is an explicit argument (`ReadOutcome` for
  SELECTs, `WriteOutcome` for INSERT/UPDATE/DELETE, mirroring the mysql
  driver's rows / OkPacket distinction);
* the ordered list of `res.status(..).send/json(..)` calls the handler
  attempts is the result, together with an uncaught exception when the
  handler throws inside the callback (`HandlerResult`).

JavaScript details that matter are kept: template-literal interpolation
turns an absent body field into the string "undefined"; `x || null` maps
falsy values (missing, empty string, 0) to SQL NULL; a second `res.send`
after the first is still an attempted send; an identifier that is not in
scope raises a ReferenceError.
-/

set_option maxRecDepth 10000

namespace BulkApi

/-- Scalar value bound as a query parameter or stored in a row. -/
inductive Value where
  | str (s : String)
  | num (n : Int)
  | null
  deriving DecidableEq, Repr

/-- One result row: a field-name-to-value mapping, as the mysql driver returns it. -/
abbrev Row := List (String × Value)

/-- What a handler hands to `pool.query`: the SQL text and the bound values.
`params` is empty exactly when the handler passes no values array. -/
structure Stmt where
  text : String
  params : List Value
  deriving DecidableEq, Repr

/-- Callback outcome of a SELECT: a list of rows, or a driver error with message. -/
inductive ReadOutcome where
  | rows (rs : List Row)
  | failure (msg : String)
  deriving DecidableEq, Repr

/-- Callback outcome of an INSERT/UPDATE/DELETE: the driver OkPacket
(affectedRows, insertId), or a driver error with message. -/
inductive WriteOutcome where
  | ok (affectedRows : Nat) (insertId : Nat)
  | failure (msg : String)
  deriving DecidableEq, Repr

/-- Response body shapes the handlers produce. -/
inductive Body where
  | rowsJson (rs : List Row)
  | okJson (affectedRows : Nat) (insertId : Nat)
  | undef
  | jsonError (m : String)
  | jsonMessage (m : String)
  | jsonMessageResult (m : String) (affectedRows : Nat) (insertId : Nat)
  | jsonMessageError (m : String) (e : String)
  | assetCreated (m : String) (assetId : Nat)
  | text (s : String)
  deriving DecidableEq, Repr

/-- One attempted `res.status(..).json/send(..)`. -/
structure HttpResponse where
  status : Nat
  body : Body
  deriving DecidableEq, Repr

/-- Everything observable about one handler run: the ordered attempted sends
and, when the handler throws inside the executor callback, the uncaught
exception. -/
structure HandlerResult where
  sends : List HttpResponse
  exn : Option String
  deriving DecidableEq, Repr

/-- The single-quote character, written by code point to keep SQL text explicit. -/
def sq : Char := Char.ofNat 39

/-- Wrap a string in single quotes exactly as the template literals
`'${value}'` in src/index.js do: no escaping of quotes inside the value. -/
def q (s : String) : String := String.singleton sq ++ s ++ String.singleton sq

/-- JS template interpolation of a possibly-absent string body field:
`${undefined}` renders as the literal text "undefined". -/
def interp : Option String → String
  | none => "undefined"
  | some s => s

/-- JS template interpolation of a possibly-absent numeric body field. -/
def interpInt : Option Int → String
  | none => "undefined"
  | some n => toString n

/-- Binding of a possibly-absent string body field: the mysql driver sends
NULL for undefined. -/
def optStr : Option String → Value
  | none => Value.null
  | some s => Value.str s

/-- Binding of a possibly-absent numeric body field. -/
def optInt : Option Int → Value
  | none => Value.null
  | some n => Value.num n

/-- JS `expr || null` on a string field: missing and empty string are falsy. -/
def orNullStr : Option String → Value
  | none => Value.null
  | some s => if s = "" then Value.null else Value.str s

/-- JS `expr || null` on a numeric field: missing and 0 are falsy. -/
def orNullInt : Option Int → Value
  | none => Value.null
  | some n => if n = 0 then Value.null else Value.num n

/-- String literals of a SQL text under the standard single-quote lexer:
scanning left to right, a quote opens a literal and the next quote closes it.
The handlers never emit quote escaping, so this is exactly how the database
side delimits the literals of the statements they build.  An unterminated
literal contributes nothing. -/
def sqlLits : List Char → Option (List Char) → List String
  | [], _ => []
  | c :: rest, none =>
      if c = sq then sqlLits rest (some []) else sqlLits rest none
  | c :: rest, some acc =>
      if c = sq then String.mk acc.reverse :: sqlLits rest none
      else sqlLits rest (some (c :: acc))

/-- A string value is carried to the database by a statement iff it is bound
as a parameter or appears as one of the statement text's SQL string
literals.  These are the only channels from handler to executor. -/
def stmtCarriesValue (s : Stmt) (v : String) : Bool :=
  s.params.contains (Value.str v) || (sqlLits s.text.data none).contains v

/-- Field access `row.field` on a driver row, as the handlers use it inside
template literals and comparisons; a missing field is `undefined`. -/
def rowStr (r : Row) (k : String) : String :=
  match r.lookup k with
  | some (Value.str s) => s
  | some (Value.num n) => toString n
  | _ => "undefined"

/-- Identifiers bound at module scope in src/index.js (the require results
and the swagger/server setup).  None of them is named `response`. -/
def moduleScope : List String :=
  ["express", "dotenv", "http", "cors", "helmet", "compression",
   "readdirSync", "pool", "app", "PORT", "swaggerJsDoc", "swaggerUi",
   "serverless", "swaggerOptions", "swaggerDocs"]

/-- Resolution of a free identifier against the identifiers in scope:
JavaScript raises a ReferenceError when the name is bound nowhere. -/
def refIdent (scope : List String) (x : String) : Except String Unit :=
  if scope.contains x then Except.ok () else
    Except.error ("ReferenceError: " ++ x ++ " is not defined")

/-- Message of the ReferenceError raised by the Person/User update handlers. -/
def responseNotDefined : String := "ReferenceError: response is not defined"

/-! ## Church routes (src/index.js lines 97-205) -/

/-- GET /api/Church (lines 97-102): on error 500 with the raw driver
message in `{ error: err.message }`, else 200 with the rows. -/
def churchGetAll (o : ReadOutcome) : List HttpResponse :=
  match o with
  | .failure m => [⟨500, Body.jsonError m⟩]
  | .rows rs => [⟨200, Body.rowsJson rs⟩]

/-- GET /api/Church/:churchId statement (line 123): parameterized. -/
def churchGetByIdStmt (churchId : Int) : Stmt :=
  ⟨"SELECT * FROM Church WHERE churchId = ?", [Value.num churchId]⟩

/-- GET /api/Church/:churchId (lines 121-127): error or zero rows give 404,
else 200 with the rows. -/
def churchGetById (o : ReadOutcome) : List HttpResponse :=
  match o with
  | .failure _ => [⟨404, Body.jsonMessage "Church not found"⟩]
  | .rows [] => [⟨404, Body.jsonMessage "Church not found"⟩]
  | .rows rs => [⟨200, Body.rowsJson rs⟩]

/-- Request body of the Church create/update routes; every field the handler
destructures, each possibly absent. -/
structure ChurchBody where
  churchId : Option Int
  churchName : Option String
  location : Option String
  branch : Option String
  province : Option String
  city : Option String
  region : Option String
  pastorId : Option Int
  deriving DecidableEq, Repr

/-- INSERT text of POST /api/Church (line 146): placeholders only. -/
def churchInsertSql : String :=
  "INSERT INTO Church (churchName, location, branch, province, city, region, pastorId) VALUES (?, ?, ?, ?, ?, ?, ?)"

/-- Statement POST /api/Church hands to the executor (line 148): the seven
body fields bound in order, absent ones as NULL. -/
def churchPostStmt (b : ChurchBody) : Stmt :=
  ⟨churchInsertSql,
   [optStr b.churchName, optStr b.location, optStr b.branch, optStr b.province,
    optStr b.city, optStr b.region, optInt b.pastorId]⟩

/-- POST /api/Church (lines 144-152): no field validation; the INSERT is
always issued; driver error gives 400 `{ error: err.message }`, success 201
with a confirmation message and the OkPacket. -/
def churchPost (b : ChurchBody) (o : WriteOutcome) : List Stmt × List HttpResponse :=
  ([churchPostStmt b],
    match o with
    | .failure m => [⟨400, Body.jsonError m⟩]
    | .ok a i => [⟨201, Body.jsonMessageResult "Church created successfully" a i⟩])

/-- UPDATE text of PUT /api/Church (lines 171-175), whitespace normalized. -/
def churchUpdateSql : String :=
  "UPDATE Church SET churchName = ?, location = ?, branch = ?, province = ?, city = ?, region = ?, pastorId = ? WHERE churchId = ?"

/-- Statement PUT /api/Church hands to the executor (line 176). -/
def churchPutStmt (b : ChurchBody) : Stmt :=
  ⟨churchUpdateSql,
   [optStr b.churchName, optStr b.location, optStr b.branch, optStr b.province,
    optStr b.city, optStr b.region, optInt b.pastorId, optInt b.churchId]⟩

/-- PUT /api/Church (lines 169-180): driver error gives 500, otherwise 200
with a confirmation — the handler never reads `result.affectedRows`. -/
def churchPut (b : ChurchBody) (o : WriteOutcome) : List Stmt × List HttpResponse :=
  ([churchPutStmt b],
    match o with
    | .failure m => [⟨500, Body.jsonError m⟩]
    | .ok a i => [⟨200, Body.jsonMessageResult "Church updated successfully" a i⟩])

/-- DELETE /api/Church/:id statement (line 201): parameterized. -/
def churchDeleteStmt (churchId : Int) : Stmt :=
  ⟨"DELETE FROM Church WHERE churchId = ?", [Value.num churchId]⟩

/-- DELETE /api/Church/:id (lines 199-205): error or zero affected rows give
404, else 200. -/
def churchDelete (o : WriteOutcome) : List HttpResponse :=
  match o with
  | .failure _ => [⟨404, Body.jsonMessage "Church not found"⟩]
  | .ok 0 _ => [⟨404, Body.jsonMessage "Church not found"⟩]
  | .ok (Nat.succ _) _ => [⟨200, Body.jsonMessage "Church deleted successfully"⟩]

/-! ## Person routes (src/index.js lines 224-492)

Every Person statement is built by template-literal interpolation; no values
array is ever passed to `pool.query`.  Body fields reach the template as
their string rendering, so they are modelled as `Option String`. -/

/-- Request body of the Person create/update routes. -/
structure PersonBody where
  personId : Option String
  address : Option String
  comments : Option String
  contactNumber : Option String
  gender : Option String
  maritalStatus : Option String
  name : Option String
  surname : Option String
  churchId : Option String
  cellLeader : Option String
  cellLocation : Option String
  ministry : Option String
  church : Option String
  region : Option String
  regContribution : Option String
  seedContribution : Option String
  amount : Option String
  deriving DecidableEq, Repr

/-- Statement of GET /api/Person/:id (line 265): the parsed id is
interpolated into the text and nothing is bound. -/
def personGetByIdStmt (personId : Int) : Stmt :=
  ⟨"select * from Person where personId=" ++ toString personId, []⟩

/-- GET /api/Person/:id (lines 262-274): a driver error triggers a 404 send
not followed by `return`, so the 200 send of the (undefined) result is still
attempted; zero rows are not checked and give 200 with the empty array. -/
def personGetById (o : ReadOutcome) : List HttpResponse :=
  match o with
  | .failure _ => [⟨404, Body.jsonMessage "Person not found"⟩, ⟨200, Body.undef⟩]
  | .rows rs => [⟨200, Body.rowsJson rs⟩]

/-- INSERT text of POST /api/Person (lines 352-354): every field value is
spliced between single quotes with no escaping (spacing as in the source). -/
def personPostSql (b : PersonBody) : String :=
  "INSERT INTO Person\n    (personId, address, comments, contactNumber, gender, maritalStatus, name, surname, churchId, cellLeader, cellLocation, ministry, church, region, regContribution, seedContribution, amount) VALUES \n    ("
    ++ q (interp b.personId) ++ ", " ++ q (interp b.address) ++ ", "
    ++ q (interp b.comments) ++ ", " ++ q (interp b.contactNumber) ++ ", "
    ++ q (interp b.gender) ++ ", " ++ q (interp b.maritalStatus) ++ " , "
    ++ q (interp b.name) ++ ", " ++ q (interp b.surname) ++ " , "
    ++ q (interp b.churchId) ++ ", " ++ q (interp b.cellLeader) ++ ", "
    ++ q (interp b.cellLocation) ++ " , " ++ q (interp b.ministry) ++ ", "
    ++ q (interp b.church) ++ ", " ++ q (interp b.region) ++ ", "
    ++ q (interp b.regContribution) ++ ", " ++ q (interp b.seedContribution) ++ ", "
    ++ q (interp b.amount) ++ ")"

/-- Statement POST /api/Person hands to the executor (line 357): text only,
no bound values. -/
def personPostStmt (b : PersonBody) : Stmt := ⟨personPostSql b, []⟩

/-- POST /api/Person (lines 331-369): a driver error makes the callback
`return err` without sending anything; success sends 200 with the raw
OkPacket. -/
def personPost (b : PersonBody) (o : WriteOutcome) : List Stmt × List HttpResponse :=
  ([personPostStmt b],
    match o with
    | .failure _ => []
    | .ok a i => [⟨200, Body.okJson a i⟩])

/-- UPDATE text of PUT /api/Person/{id} (lines 439-441): every field and the
identifier interpolated between single quotes. -/
def personPutSql (b : PersonBody) : String :=
  "UPDATE Person\n        SET  address=" ++ q (interp b.address)
    ++ ", comments=" ++ q (interp b.comments)
    ++ ", contactNumber=" ++ q (interp b.contactNumber)
    ++ ", gender=" ++ q (interp b.gender)
    ++ ", maritalStatus=" ++ q (interp b.maritalStatus)
    ++ ", name=" ++ q (interp b.name)
    ++ ", surname=" ++ q (interp b.surname)
    ++ ", churchId=" ++ q (interp b.churchId)
    ++ ", cellLeader=" ++ q (interp b.cellLeader)
    ++ ", cellLocation=" ++ q (interp b.cellLocation)
    ++ ", ministry=" ++ q (interp b.ministry)
    ++ ", church=" ++ q (interp b.church)
    ++ ", region=" ++ q (interp b.region)
    ++ ", regContribution=" ++ q (interp b.regContribution)
    ++ ", seedContribution=" ++ q (interp b.seedContribution)
    ++ ", amount=" ++ q (interp b.amount)
    ++ "\n        WHERE personId=" ++ q (interp b.personId) ++ " "

/-- Statement PUT /api/Person/{id} hands to the executor (line 443). -/
def personPutStmt (b : PersonBody) : Stmt := ⟨personPutSql b, []⟩

/-- Identifiers in scope inside the PUT /api/Person/{id} callback (lines
417-455): the handler parameters `request` and `res`, the destructured body
constants, the sql string, the callback parameters, and module scope.
`response` is not among them. -/
def personPutScope : List String :=
  moduleScope ++
  ["request", "res", "personId", "address", "comments", "contactNumber",
   "gender", "maritalStatus", "name", "surname", "churchId", "cellLeader",
   "cellLocation", "ministry", "church", "region", "regContribution",
   "seedContribution", "amount", "sql", "err", "result"]

/-- PUT /api/Person/{id} (lines 417-455): on a driver error the callback
does `return err` sending nothing; on success it evaluates
`response.status(200)` where `response` is unbound (the response object is
the parameter `res`), raising a ReferenceError that the surrounding
try/catch cannot intercept because the callback runs after the try block. -/
def personPut (b : PersonBody) (o : WriteOutcome) : List Stmt × HandlerResult :=
  ([personPutStmt b],
    match o with
    | .failure _ => { sends := [], exn := none }
    | .ok a i =>
      match refIdent personPutScope "response" with
      | .error e => { sends := [], exn := some e }
      | .ok _ => { sends := [⟨200, Body.okJson a i⟩], exn := none })

/-- Statement of DELETE /api/Person/{id} (line 483): the raw path parameter
is interpolated, nothing bound. -/
def personDeleteStmt (personId : String) : Stmt :=
  ⟨"delete from Person where personId=" ++ personId, []⟩

/-- DELETE /api/Person/{id} (lines 480-492): a driver error triggers a 404
send without `return`, then the 200 send is still attempted; on success the
200 send of the OkPacket happens regardless of `affectedRows`. -/
def personDelete (o : WriteOutcome) : List HttpResponse :=
  match o with
  | .failure _ => [⟨404, Body.jsonMessage "Person not found"⟩, ⟨200, Body.undef⟩]
  | .ok a i => [⟨200, Body.okJson a i⟩]

/-! ## Login and User update (src/index.js lines 898-921 and 956-981) -/

/-- Statement of POST /Login/ (line 904): the username is bound. -/
def loginStmt (username : String) : Stmt :=
  ⟨"select password from User where username=?", [Value.str username]⟩

/-- POST /Login/ (lines 898-921).  On a driver error `result` is undefined
and `JSON.parse(JSON.stringify(undefined))` throws a SyntaxError before the
err check.  With zero rows, `res == []` is false (array compared to a fresh
array by reference), so the else branch reads `res[0].password` of undefined
and throws a TypeError.  With a row, a password mismatch sends 401 and,
lacking a `return`, falls through to also send the 200 success; a match
sends only the 200. -/
def login (password : String) (o : ReadOutcome) : HandlerResult :=
  match o with
  | .failure _ => { sends := [], exn := some "SyntaxError" }
  | .rows [] => { sends := [], exn := some "TypeError" }
  | .rows (r :: _) =>
    if rowStr r "password" = password then
      { sends := [⟨200, Body.text "Auth Successfully, Access Granted!!"⟩], exn := none }
    else
      { sends := [⟨401, Body.text "Unaurthorized, invalid password"⟩,
                  ⟨200, Body.text "Auth Successfully, Access Granted!!"⟩],
        exn := none }

/-- Request body of the User update route. -/
structure UserBody where
  userId : Option String
  role : Option String
  username : Option String
  password : Option String
  personId : Option String
  deriving DecidableEq, Repr

/-- UPDATE text of PUT /api/User/{id} (lines 965-967). -/
def userPutSql (b : UserBody) : String :=
  "UPDATE User\n        SET  role=" ++ q (interp b.role)
    ++ ", username=" ++ q (interp b.username)
    ++ ", password=" ++ q (interp b.password)
    ++ ", personId=" ++ q (interp b.personId)
    ++ "\n        WHERE userId=" ++ q (interp b.userId) ++ " "

/-- Statement PUT /api/User/{id} hands to the executor (line 969). -/
def userPutStmt (b : UserBody) : Stmt := ⟨userPutSql b, []⟩

/-- Identifiers in scope inside the PUT /api/User/{id} callback (lines
956-981); `response` is not among them. -/
def userPutScope : List String :=
  moduleScope ++
  ["request", "res", "userId", "role", "username", "password", "personId",
   "sql", "err", "result"]

/-- PUT /api/User/{id} (lines 956-981): same shape as the Person update —
`return err` on failure, and on success a ReferenceError from the unbound
`response`. -/
def userPut (b : UserBody) (o : WriteOutcome) : List Stmt × HandlerResult :=
  ([userPutStmt b],
    match o with
    | .failure _ => { sends := [], exn := none }
    | .ok a i =>
      match refIdent userPutScope "response" with
      | .error e => { sends := [], exn := some e }
      | .ok _ => { sends := [⟨200, Body.okJson a i⟩], exn := none })

/-! ## Assets routes (src/index.js lines 1364-1592) -/

/-- Request body of the Assets create/update routes. -/
structure AssetBody where
  location_id : Option Int
  name : Option String
  description : Option String
  purchase_date : Option String
  purchase_price : Option Int
  serial_number : Option String
  category : Option String
  condition : Option String
  last_maintenance_date : Option String
  deriving DecidableEq, Repr

/-- Location lookup text of POST /api/Assets (line 1383), with the source's
variable name. -/
def checkLocationSQL : String := "SELECT name FROM Locations WHERE location_id = ?"

/-- INSERT text of POST /api/Assets (lines 1397-1403), whitespace
normalized: placeholders only. -/
def insertAssetSql : String :=
  "INSERT INTO Assets (location_id, name, description, purchase_date, purchase_price, serial_number, category, `condition`, last_maintenance_date) VALUES (?, ?, ?, ?, ?, ?, ?, ?, ?)"

/-- Values array of the Assets INSERT (lines 1405-1415): `purchase_date`,
`purchase_price` and `last_maintenance_date` go through `|| null`. -/
def assetValues (lid : Int) (b : AssetBody) : List Value :=
  [Value.num lid, optStr b.name, optStr b.description, orNullStr b.purchase_date,
   orNullInt b.purchase_price, optStr b.serial_number, optStr b.category,
   optStr b.condition, orNullStr b.last_maintenance_date]

/-- Success message of POST /api/Assets (line 1424): the asset and looked-up
location names interpolated between single quotes. -/
def assetMsg (nm loc : String) : String :=
  "Asset " ++ q nm ++ " added successfully at location " ++ q loc

/-- POST /api/Assets (lines 1364-1429).  A falsy `location_id` (missing or
0) is rejected 400 before any query.  Otherwise the handler first runs the
parameterized Locations lookup: driver error gives a generic 500 "Database
error", zero rows give 404 "Invalid location ID" and no INSERT; with a row
the parameterized INSERT is issued, a driver error giving 500 with the
driver message and success giving 200 with a message naming the looked-up
location and the generated `insertId`. -/
def assetsPost (b : AssetBody) (lo : ReadOutcome) (io : WriteOutcome) :
    List Stmt × List HttpResponse :=
  match b.location_id with
  | none => ([], [⟨400, Body.jsonMessage "Invalid or missing location_id"⟩])
  | some lid =>
    if lid = 0 then ([], [⟨400, Body.jsonMessage "Invalid or missing location_id"⟩])
    else
      match lo with
      | .failure _ =>
          ([⟨checkLocationSQL, [Value.num lid]⟩],
           [⟨500, Body.jsonMessage "Database error"⟩])
      | .rows [] =>
          ([⟨checkLocationSQL, [Value.num lid]⟩],
           [⟨404, Body.jsonMessage "Invalid location ID"⟩])
      | .rows (r :: _) =>
          match io with
          | .failure m =>
              ([⟨checkLocationSQL, [Value.num lid]⟩, ⟨insertAssetSql, assetValues lid b⟩],
               [⟨500, Body.jsonMessageError "Error adding asset" m⟩])
          | .ok _ iid =>
              ([⟨checkLocationSQL, [Value.num lid]⟩, ⟨insertAssetSql, assetValues lid b⟩],
               [⟨200, Body.assetCreated (assetMsg (interp b.name) (rowStr r "name")) iid⟩])

/-- UPDATE text of PUT /api/Assets/:id (lines 1541-1545): every field and
the raw path id interpolated (`purchase_price` and `asset_id` unquoted). -/
def assetsPutSql (assetId : String) (b : AssetBody) : String :=
  "UPDATE Assets SET \n        location_id=" ++ q (interpInt b.location_id)
    ++ ", name=" ++ q (interp b.name)
    ++ ", description=" ++ q (interp b.description)
    ++ ", purchase_date=" ++ q (interp b.purchase_date)
    ++ ", \n        purchase_price=" ++ interpInt b.purchase_price
    ++ ", serial_number=" ++ q (interp b.serial_number)
    ++ ", category=" ++ q (interp b.category)
    ++ ", \n        condition=" ++ q (interp b.condition)
    ++ ", last_maintenance_date=" ++ q (interp b.last_maintenance_date)
    ++ " \n        WHERE asset_id=" ++ assetId

/-- PUT /api/Assets/:id (lines 1538-1557): a single interpolated UPDATE —
no Locations lookup of any kind — then 404 on error or zero affected rows,
else 200 with the OkPacket. -/
def assetsPut (assetId : String) (b : AssetBody) (o : WriteOutcome) :
    List Stmt × List HttpResponse :=
  ([⟨assetsPutSql assetId b, []⟩],
    match o with
    | .failure _ => [⟨404, Body.jsonMessage "Asset not found"⟩]
    | .ok 0 _ => [⟨404, Body.jsonMessage "Asset not found"⟩]
    | .ok (Nat.succ a) i => [⟨200, Body.okJson (a + 1) i⟩])

/-! ## Locations routes (src/index.js lines 1609-1744) -/

/-- Request body of the Locations create route. -/
structure LocationBody where
  name : Option String
  address : Option String
  contact_person : Option String
  contact_phone : Option String
  deriving DecidableEq, Repr

/-- INSERT text of POST /api/Locations (line 1653): placeholders only. -/
def locationsInsertSql : String :=
  "INSERT INTO Locations (name, address, contact_person, contact_phone) VALUES (?, ?, ?, ?)"

/-- Statement POST /api/Locations hands to the executor (line 1655). -/
def locationsPostStmt (b : LocationBody) : Stmt :=
  ⟨locationsInsertSql,
   [optStr b.name, optStr b.address, optStr b.contact_person, optStr b.contact_phone]⟩

/-- POST /api/Locations (lines 1650-1659): no field validation; driver error
gives 400 `{ message: err.message }`, success 201 with a confirmation and
the OkPacket. -/
def locationsPost (b : LocationBody) (o : WriteOutcome) : List Stmt × List HttpResponse :=
  ([locationsPostStmt b],
    match o with
    | .failure m => [⟨400, Body.jsonMessage m⟩]
    | .ok a i => [⟨201, Body.jsonMessageResult "Location added successfully" a i⟩])

/-! ## Executor semantics for the parameterized Church statements

For the round-trip property the database side of the Church INSERT/SELECT
pair is modelled relationally: the table is a list of (primary key, payload)
rows, an INSERT appends a fresh row and reports its key as `insertId`, and
the SELECT filters on the key.  The payload is exactly the tuple of bound
values of `churchPostStmt`. -/

/-- The seven bound column values of a Church row, in INSERT order. -/
structure ChurchPayload where
  churchName : Value
  location : Value
  branch : Value
  province : Value
  city : Value
  region : Value
  pastorId : Value
  deriving DecidableEq, Repr

/-- The payload the Church create binds for a given request body. -/
def churchPayloadOf (b : ChurchBody) : ChurchPayload :=
  ⟨optStr b.churchName, optStr b.location, optStr b.branch, optStr b.province,
   optStr b.city, optStr b.region, optInt b.pastorId⟩

/-- Church table state: the next auto-increment key and the stored rows. -/
structure ChurchDb where
  nextId : Int
  rows : List (Int × ChurchPayload)
  deriving DecidableEq, Repr

/-- Executor semantics of the parameterized Church INSERT: append a row
under the fresh key and report that key. -/
def execChurchInsert (db : ChurchDb) (p : ChurchPayload) : ChurchDb × Int :=
  ({ nextId := db.nextId + 1, rows := db.rows ++ [(db.nextId, p)] }, db.nextId)

/-- Executor semantics of the parameterized Church SELECT by key. -/
def execChurchSelectById (db : ChurchDb) (id : Int) : List (Int × ChurchPayload) :=
  db.rows.filter (fun r => r.1 == id)

/-! ## Concrete inputs used by the counterexamples and witnesses -/

/-- Church body with every field absent. -/
def noChurchBody : ChurchBody :=
  ⟨none, none, none, none, none, none, none, none⟩

/-- Sample Church create body. -/
def sampleChurchBody : ChurchBody :=
  ⟨none, some "Cell Church", some "Main Street", some "East", some "Gauteng",
   some "Johannesburg", some "A", some 3⟩

/-- The name O'Brien, whose single quote the Person INSERT splices unescaped. -/
def obrienName : String := "O" ++ String.singleton sq ++ "Brien"

/-- The name O'Hara, used against the Person UPDATE. -/
def oharaName : String := "O" ++ String.singleton sq ++ "Hara"

/-- Person create body whose name field holds a single quote. -/
def obrienBody : PersonBody :=
  ⟨some "12", some "1 Main St", some "none", some "000", some "1", some "single",
   some obrienName, some "Smith", some "3", some "L", some "East", some "Youth",
   some "BBM", some "GP", some "0", some "0", some "0"⟩

/-- Person update body whose name field holds a single quote. -/
def oharaBody : PersonBody :=
  ⟨some "12", some "1 Main St", some "none", some "000", some "1", some "single",
   some oharaName, some "Smith", some "3", some "L", some "East", some "Youth",
   some "BBM", some "GP", some "0", some "0", some "0"⟩

/-- Asset body with a well-formed location reference (location_id 9). -/
def testAssetBody : AssetBody :=
  ⟨some 9, some "Projector", some "HD projector", some "2024-01-02", some 100,
   some "SN42", some "AV", some "good", none⟩

/-- Asset body referencing location 999, assumed absent from Locations. -/
def badLocAssetBody : AssetBody :=
  ⟨some 999, some "Projector", some "HD projector", some "2024-01-02", some 100,
   some "SN42", some "AV", some "good", none⟩

/-! ## Claims -/

/-- C1 (code bug): the Person single-row operations bind neither the
identifier nor the field values.  Evaluated at concrete inputs: GET
/api/Person/1 and DELETE /api/Person/5 interpolate the id into the SQL text
and bind nothing; the Person update for a body whose name is O'Hara also
binds nothing, and the statement it hands to the executor carries the name
neither as a bound parameter nor as any SQL string literal of its text — the
unescaped quote terminates the literal early — so the value cannot be stored
or read back verbatim, against the claimed universal parameter binding. -/
theorem person_identifier_interpolated :
    personGetByIdStmt 1 = ⟨"select * from Person where personId=1", []⟩ ∧
    personDeleteStmt "5" = ⟨"delete from Person where personId=5", []⟩ ∧
    (personPutStmt oharaBody).params = [] ∧
    stmtCarriesValue (personPutStmt oharaBody) oharaName = false :=
  ⟨by decide, rfl, rfl, by decide⟩

/-- C2 (code bug): an update or delete that succeeds with zero affected rows
is still reported as success.  Evaluated at the failing input: PUT
/api/Church whose UPDATE matches no row (OkPacket with affectedRows = 0)
responds 200 "Church updated successfully", and DELETE /api/Person/{id} in
the same situation responds 200 with the OkPacket — not 404. -/
theorem zero_rows_reported_success :
    (churchPut noChurchBody (WriteOutcome.ok 0 0)).2
      = [⟨200, Body.jsonMessageResult "Church updated successfully" 0 0⟩] ∧
    personDelete (WriteOutcome.ok 0 0) = [⟨200, Body.okJson 0 0⟩] :=
  ⟨rfl, rfl⟩

/-- C3 (code bug): GET /api/Person/:id with no matching row — the SELECT
returns zero rows and no error — responds 200 with the empty array, never
the 404 its own swagger documents; only the error branch can produce the
404.  (GET /api/Church/:churchId does check the row count.) -/
theorem person_get_missing_returns_200_empty :
    personGetById (ReadOutcome.rows []) = [⟨200, Body.rowsJson []⟩] ∧
    churchGetById (ReadOutcome.rows []) = [⟨404, Body.jsonMessage "Church not found"⟩] :=
  ⟨rfl, rfl⟩

/-- C4 counterexample: PUT /api/Assets/7 with a body referencing location
999 issues exactly one statement — the interpolated UPDATE, which is not the
`checkLocationSQL` lookup — and on a successful UPDATE responds 200: the
update path performs no Location lookup and rejects nothing, so the claimed
lookup before "both Create and Update" is false on the Update side. -/
theorem assets_update_without_location_check :
    (assetsPut "7" badLocAssetBody (WriteOutcome.ok 1 0)).1
      = [⟨assetsPutSql "7" badLocAssetBody, []⟩] ∧
    assetsPutSql "7" badLocAssetBody ≠ checkLocationSQL ∧
    (assetsPut "7" badLocAssetBody (WriteOutcome.ok 1 0)).2 = [⟨200, Body.okJson 1 0⟩] :=
  ⟨rfl, by decide, rfl⟩

/-- C4 amended (proved): the Location foreign-key check guards only the
Asset Create.  For any body with a usable location_id, the first statement
Create issues is always the parameterized `checkLocationSQL` lookup; when
the lookup returns no row the handler responds 404 "Invalid location ID"
(rather than a 400 validation status) and issues no INSERT; when it returns
a row and the INSERT succeeds, the 200 message names the looked-up location.
The Asset Update never issues the lookup. -/
theorem assets_location_check_create_only (b : AssetBody) (lid : Int)
    (hb : b.location_id = some lid) (h0 : lid ≠ 0) :
    (∀ lo io, ((assetsPost b lo io).1).head? = some ⟨checkLocationSQL, [Value.num lid]⟩) ∧
    (∀ io, assetsPost b (ReadOutcome.rows []) io
        = ([⟨checkLocationSQL, [Value.num lid]⟩],
           [⟨404, Body.jsonMessage "Invalid location ID"⟩])) ∧
    (∀ (r : Row) (rest : List Row) (a iid : Nat),
      (assetsPost b (ReadOutcome.rows (r :: rest)) (WriteOutcome.ok a iid)).2
        = [⟨200, Body.assetCreated (assetMsg (interp b.name) (rowStr r "name")) iid⟩]) ∧
    (∀ (assetId : String) (o : WriteOutcome) (n : Int),
      Stmt.mk checkLocationSQL [Value.num n] ∉ (assetsPut assetId b o).1) := by
  refine ⟨?_, ?_, ?_, ?_⟩
  · intro lo io
    cases lo with
    | failure m => simp [assetsPost, hb, h0]
    | rows rs =>
      cases rs with
      | nil => simp [assetsPost, hb, h0]
      | cons r rest => cases io <;> simp [assetsPost, hb, h0]
  · intro io
    simp [assetsPost, hb, h0]
  · intro r rest a iid
    simp [assetsPost, hb, h0]
  · intro assetId o n h
    simp [assetsPut] at h

/-- C4 witness: the amended theorem applied at location_id 9 with an empty
lookup result. -/
theorem assets_location_check_create_only_witness :
    testAssetBody.location_id = some 9 ∧ (9 : Int) ≠ 0 ∧
    assetsPost testAssetBody (ReadOutcome.rows []) (WriteOutcome.ok 0 0)
      = ([⟨checkLocationSQL, [Value.num 9]⟩],
         [⟨404, Body.jsonMessage "Invalid location ID"⟩]) :=
  ⟨rfl, by decide,
   (assets_location_check_create_only testAssetBody 9 rfl (by decide)).2.1
     (WriteOutcome.ok 0 0)⟩

/-- C5 (code bug): Login with an existing username and a wrong password
sends twice — the 401 is not followed by a return, so the 200 success body
is also sent — and the 401 body names the password case while the other
failure paths produce different bodies, disclosing which check failed.
Evaluated at a stored password "secret" and supplied password "wrong". -/
theorem login_wrong_password_double_send :
    login "wrong" (ReadOutcome.rows [[("password", Value.str "secret")]])
      = { sends := [⟨401, Body.text "Unaurthorized, invalid password"⟩,
                    ⟨200, Body.text "Auth Successfully, Access Granted!!"⟩],
          exn := none } := by
  decide

/-- C6 counterexample: a successful Asset Create responds 200, not the
claimed 201 — POST /api/Assets with the sample body, the location lookup
returning the row named HQ, and the INSERT succeeding with insertId 42. -/
theorem assets_create_responds_200_not_201 :
    (assetsPost testAssetBody (ReadOutcome.rows [[("name", Value.str "HQ")]])
        (WriteOutcome.ok 1 42)).2
      = [⟨200, Body.assetCreated (assetMsg "Projector" "HQ") 42⟩] := by
  decide

/-- C6 amended (proved): a Create the database executes successfully always
returns the OkPacket data (carrying the generated identifier), but the
status and body vary per entity: Church and Locations respond 201 with a
confirmation message, Assets responds 200 with a message and the insertId,
and Person responds 200 with the raw OkPacket and no message. -/
theorem create_success_statuses :
    (∀ (b : ChurchBody) (a i : Nat), (churchPost b (WriteOutcome.ok a i)).2
        = [⟨201, Body.jsonMessageResult "Church created successfully" a i⟩]) ∧
    (∀ (b : LocationBody) (a i : Nat), (locationsPost b (WriteOutcome.ok a i)).2
        = [⟨201, Body.jsonMessageResult "Location added successfully" a i⟩]) ∧
    (∀ (b : PersonBody) (a i : Nat), (personPost b (WriteOutcome.ok a i)).2
        = [⟨200, Body.okJson a i⟩]) ∧
    (∀ (b : AssetBody) (lid : Int) (r : Row) (rest : List Row) (a iid : Nat),
      b.location_id = some lid → lid ≠ 0 →
      (assetsPost b (ReadOutcome.rows (r :: rest)) (WriteOutcome.ok a iid)).2
        = [⟨200, Body.assetCreated (assetMsg (interp b.name) (rowStr r "name")) iid⟩]) := by
  refine ⟨fun b a i => rfl, fun b a i => rfl, fun b a i => rfl, ?_⟩
  intro b lid r rest a iid hb h0
  simp [assetsPost, hb, h0]

/-- C6 witness: the amended theorem applied at the sample Asset body, the
HQ lookup row and insertId 7. -/
theorem create_success_statuses_witness :
    testAssetBody.location_id = some 9 ∧ (9 : Int) ≠ 0 ∧
    (assetsPost testAssetBody (ReadOutcome.rows [[("name", Value.str "HQ")]])
        (WriteOutcome.ok 1 7)).2
      = [⟨200, Body.assetCreated (assetMsg (interp testAssetBody.name)
            (rowStr [("name", Value.str "HQ")] "name")) 7⟩] :=
  ⟨rfl, by decide,
   create_success_statuses.2.2.2 testAssetBody 9 [("name", Value.str "HQ")] [] 1 7
     rfl (by decide)⟩

/-- C7 counterexample: POST /api/Church with an empty body — every field,
including the required churchName and location, absent — still issues the
INSERT, binding NULL for each column, and when the database accepts it the
handler answers 201, never a 400 listing missing fields. -/
theorem church_create_empty_body_still_inserts :
    churchPost noChurchBody (WriteOutcome.ok 1 5)
      = ([⟨churchInsertSql,
           [Value.null, Value.null, Value.null, Value.null, Value.null, Value.null,
            Value.null]⟩],
         [⟨201, Body.jsonMessageResult "Church created successfully" 1 5⟩]) :=
  rfl

/-- C7 amended (proved): Create performs no required-field validation: for
every body, however incomplete, the Church and Locations creates issue
exactly their INSERT with missing fields bound as NULL, answer 400 only on a
driver error — echoing the driver message, not a list of missing fields —
and answer success when the driver succeeds. -/
theorem create_no_field_validation :
    (∀ (b : ChurchBody) (o : WriteOutcome), (churchPost b o).1 = [churchPostStmt b]) ∧
    (∀ (b : ChurchBody) (m : String), (churchPost b (WriteOutcome.failure m)).2
        = [⟨400, Body.jsonError m⟩]) ∧
    (∀ (b : ChurchBody) (a i : Nat), (churchPost b (WriteOutcome.ok a i)).2
        = [⟨201, Body.jsonMessageResult "Church created successfully" a i⟩]) ∧
    (∀ (b : LocationBody) (o : WriteOutcome), (locationsPost b o).1 = [locationsPostStmt b]) ∧
    (∀ (b : LocationBody) (m : String), (locationsPost b (WriteOutcome.failure m)).2
        = [⟨400, Body.jsonMessage m⟩]) :=
  ⟨fun _ _ => rfl, fun _ _ => rfl, fun _ _ _ => rfl, fun _ _ => rfl, fun _ _ => rfl⟩

/-- C8 counterexample: GET /api/Church maps a driver error to 500 with the
raw driver text in the body — `{ error: err.message }` verbatim — so the
response does contain raw driver error text. -/
theorem church_list_error_echoes_driver_message :
    churchGetAll (ReadOutcome.failure "ER_PARSE_ERROR: You have an error in your SQL syntax")
      = [⟨500, Body.jsonError "ER_PARSE_ERROR: You have an error in your SQL syntax"⟩] :=
  rfl

/-- C8 amended (proved): database errors are surfaced inconsistently: the
Church list and create echo the raw driver message to the client (500 and
400 respectively), while the Assets location lookup maps any driver error to
a generic 500 "Database error" and the Person GetByID to a fixed 404 body. -/
theorem db_error_surface :
    (∀ m, churchGetAll (ReadOutcome.failure m) = [⟨500, Body.jsonError m⟩]) ∧
    (∀ (b : ChurchBody) m, (churchPost b (WriteOutcome.failure m)).2
        = [⟨400, Body.jsonError m⟩]) ∧
    (∀ m io, (assetsPost testAssetBody (ReadOutcome.failure m) io).2
        = [⟨500, Body.jsonMessage "Database error"⟩]) ∧
    (∀ m, personGetById (ReadOutcome.failure m)
        = [⟨404, Body.jsonMessage "Person not found"⟩, ⟨200, Body.undef⟩]) :=
  ⟨fun _ => rfl, fun _ _ => rfl, fun _ _ => rfl, fun _ => rfl⟩

/-- C9 counterexample: the Person create with the O'Brien payload hands the
executor a statement with no bound values whose text, lexed by the standard
SQL single-quote rule, has no literal equal to the name — the unescaped
quote terminates the literal early — so the value never reaches the database
and no subsequent read can return it: the Create-then-GetByID round trip
fails for this valid payload. -/
theorem person_create_drops_quoted_value :
    (personPostStmt obrienBody).params = [] ∧
    stmtCarriesValue (personPostStmt obrienBody) obrienName = false :=
  ⟨rfl, by decide⟩

/-- C9 amended (proved): for the Church entity, whose Create binds all its
values as parameters, Create followed by GetByID on the generated identifier
returns exactly the created row: inserting the bound payload of any request
body into any table state whose stored keys are below the auto-increment
counter, then selecting on the reported insertId, yields the one row holding
that payload.  (For Person the round trip fails; see the counterexample.) -/
theorem church_create_then_get (db : ChurchDb) (b : ChurchBody)
    (h : ∀ r ∈ db.rows, r.1 < db.nextId) :
    execChurchSelectById (execChurchInsert db (churchPayloadOf b)).1
        (execChurchInsert db (churchPayloadOf b)).2
      = [((execChurchInsert db (churchPayloadOf b)).2, churchPayloadOf b)] := by
  have h1 : db.rows.filter (fun r => r.1 == db.nextId) = [] := by
    refine List.filter_eq_nil_iff.mpr ?_
    intro a ha
    have := h a ha
    simp only [beq_iff_eq]
    omega
  simp [execChurchInsert, execChurchSelectById, List.filter_append, h1]

/-- C9 witness: the round trip evaluated concretely — a one-row table with
key 0 and counter 5, inserting the sample Church body. -/
theorem church_create_then_get_witness :
    (∀ r ∈ (ChurchDb.mk 5 [(0, churchPayloadOf noChurchBody)]).rows, r.1 < (5 : Int)) ∧
    execChurchSelectById
        (execChurchInsert ⟨5, [(0, churchPayloadOf noChurchBody)]⟩
          (churchPayloadOf sampleChurchBody)).1
        (execChurchInsert ⟨5, [(0, churchPayloadOf noChurchBody)]⟩
          (churchPayloadOf sampleChurchBody)).2
      = [((execChurchInsert ⟨5, [(0, churchPayloadOf noChurchBody)]⟩
            (churchPayloadOf sampleChurchBody)).2,
          churchPayloadOf sampleChurchBody)] :=
  ⟨by decide,
   church_create_then_get ⟨5, [(0, churchPayloadOf noChurchBody)]⟩ sampleChurchBody
     (by decide)⟩

/-- C10 (confirmed): the Person and User update handlers never send any
response: on a driver error the callback just returns the error object, and
on success they dereference `response`, which is bound neither in the
handler (whose response parameter is `res`) nor at module scope, raising a
ReferenceError instead of replying 200. -/
theorem person_user_update_never_respond :
    (∀ (b : PersonBody) (o : WriteOutcome), (personPut b o).2.sends = []) ∧
    (∀ (b : PersonBody) (a i : Nat),
      (personPut b (WriteOutcome.ok a i)).2.exn = some responseNotDefined) ∧
    (∀ (b : UserBody) (o : WriteOutcome), (userPut b o).2.sends = []) ∧
    (∀ (b : UserBody) (a i : Nat),
      (userPut b (WriteOutcome.ok a i)).2.exn = some responseNotDefined) := by
  refine ⟨fun b o => ?_, fun b a i => rfl, fun b o => ?_, fun b a i => rfl⟩
  · cases o <;> rfl
  · cases o <;> rfl

end BulkApi
